import Mathlib

/-!
Shallow embedding of the transaction-webhook backend
(`backend/core/db.py`, `backend/core/utils.py`,
`backend/api/v1/webhook_transaction.py`, `backend/api/v1/transaction_status.py`,
`backend/helper/transaction_processor.py`).

The durable store (Supabase) is abstracted by the outcome each store round
trip produces: it either returns a list of rows (`response.data`), exceeds
its timeout (`asyncio.TimeoutError`), or raises some other exception.
Python decimal amounts are modelled as rationals.
-/

/-- One transaction row, mirroring the record shape the service reads and
writes (`webhook_transaction.py` lines 110-115, `transaction_status.py`
response model). -/
structure Transaction where
  transaction_id : String
  source_account : String
  destination_account : String
  amount : Rat
  currency : String
  status : String
  created_at : String
  processed_at : Option String
deriving DecidableEq

/-- Outcome of one underlying store round trip: the rows of
`response.data`, a timeout (`asyncio.TimeoutError`), or any other raised
exception. -/
inductive DbOutcome (α : Type) where
  | ok (data : α)
  | timeout
  | err
deriving DecidableEq

/-- Whether a store outcome is one the retry loop in
`_execute_update_with_retry` treats as transient (its two `except` arms:
timeout and any other exception). -/
def DbOutcome.isTransient {α : Type} : DbOutcome α → Bool
  | .ok _ => false
  | .timeout => true
  | .err => true

/-- Embeds `DatabaseClient.get_transaction` (`db.py` lines 112-157): returns
`response.data[0] if response.data else None`; both `except` arms
(timeout, any other exception) log and return `None`. -/
def DatabaseClient.get_transaction (b : DbOutcome (List Transaction)) :
    Option Transaction :=
  match b with
  | .ok data => data.head?
  | .timeout => none
  | .err => none

/-- Failure modes `DatabaseClient.create_transaction` propagates to its
caller: the re-raised `asyncio.TimeoutError`, or any other re-raised
exception (including the `RuntimeError` for an empty insert response). -/
inductive CreateFailure where
  | timeout
  | err
deriving DecidableEq

/-- Embeds `DatabaseClient.create_transaction` (`db.py` lines 64-110): returns
`response.data[0]` on success, raises `RuntimeError` when the insert
response carries no data, and re-raises timeouts and other exceptions. -/
def DatabaseClient.create_transaction (b : DbOutcome (List Transaction)) :
    Except CreateFailure Transaction :=
  match b with
  | .ok (t :: _) => .ok t
  | .ok [] => .error .err
  | .timeout => .error .timeout
  | .err => .error .err

/-- Failure modes `_execute_single_update` raises to the retry loop. -/
inductive UpdateFailure where
  | timeout
  | err
deriving DecidableEq

/-- Embeds `DatabaseClient._execute_single_update` (`db.py` lines 220-251): runs
one update round trip and returns `len(response.data) > 0`; timeouts and
other exceptions propagate to the retry loop. -/
def DatabaseClient._execute_single_update (b : DbOutcome (List Transaction)) :
    Except UpdateFailure Bool :=
  match b with
  | .ok data => .ok (decide (0 < data.length))
  | .timeout => .error .timeout
  | .err => .error .err

/-- Observable trace of one `_execute_update_with_retry` call: the boolean
result, how many attempts ran, and the backoff sleeps (in seconds)
performed between attempts. -/
structure UpdateTrace where
  result : Bool
  attempts : Nat
  sleeps : List Nat
deriving DecidableEq

/-- The `for attempt in range(max_retries)` loop of
`DatabaseClient._execute_update_with_retry` (`db.py` lines 193-218).
`updates attempt` is the store outcome of attempt number `attempt`
(0-indexed); `fuel` is the number of loop iterations left. A completed
attempt ends the loop with `len(response.data) > 0`; a timeout or other
exception sleeps `2 ** attempt` seconds and retries while
`attempt < max_retries - 1`, else yields `False`. -/
def executeUpdateLoop (updates : Nat → DbOutcome (List Transaction)) :
    Nat → Nat → UpdateTrace
  | _, 0 => ⟨false, 0, []⟩
  | attempt, fuel + 1 =>
    match DatabaseClient._execute_single_update (updates attempt) with
    | .ok success => ⟨success, 1, []⟩
    | .error _ =>
      if fuel = 0 then ⟨false, 1, []⟩
      else
        let rest := executeUpdateLoop updates (attempt + 1) fuel
        ⟨rest.result, rest.attempts + 1, 2 ^ attempt :: rest.sleeps⟩

/-- Embeds `DatabaseClient._execute_update_with_retry` (`db.py` lines 184-218):
runs the retry loop from attempt 0 with `max_retries` iterations
available; falls through to `False` when the loop body never runs. -/
def DatabaseClient._execute_update_with_retry (transaction_id status : String)
    (processed_at : Option String) (use_timeout : Bool) (max_retries : Nat)
    (updates : Nat → DbOutcome (List Transaction)) : UpdateTrace :=
  executeUpdateLoop updates 0 max_retries

/-- Embeds `DatabaseClient.update_transaction_status` (`db.py` lines 159-182):
delegates to `_execute_update_with_retry`. -/
def DatabaseClient.update_transaction_status (transaction_id status : String)
    (processed_at : Option String) (use_timeout : Bool) (max_retries : Nat)
    (updates : Nat → DbOutcome (List Transaction)) : UpdateTrace :=
  DatabaseClient._execute_update_with_retry transaction_id status processed_at
    use_timeout max_retries updates

/-- An incoming webhook submission after Pydantic parsing
(`TransactionWebhookRequest`): the five caller-supplied fields, all
present and well-typed. -/
structure Submission where
  transaction_id : String
  source_account : String
  destination_account : String
  amount : Rat
  currency : String
deriving DecidableEq

/-- Embeds `validate_transaction_data` (`utils.py` lines 82-133) on the dict
produced by `request.dict()`. The field-presence and `isinstance` checks
always pass for such a dict (all five keys exist with the declared
types), so only the value checks remain, in source order. -/
def validate_transaction_data (data : Submission) : Bool × Option String :=
  if data.transaction_id.length < 5 then
    (false, some "transaction_id must be a string with at least 5 characters")
  else if data.amount ≤ 0 then
    (false, some "amount must be a positive number")
  else if data.currency.length ≠ 3 then
    (false, some "currency must be a 3-character string (e.g., \x27USD\x27, \x27INR\x27)")
  else if data.source_account.length < 3 then
    (false, some "source_account must be a string with at least 3 characters")
  else if data.destination_account.length < 3 then
    (false, some "destination_account must be a string with at least 3 characters")
  else if data.source_account = data.destination_account then
    (false, some "source_account and destination_account cannot be the same")
  else
    (true, none)

/-- Embeds `format_transaction_response` (`utils.py` lines 136-155): rebuilds the
eight response fields from the fetched row. -/
def format_transaction_response (transaction : Transaction) : Transaction :=
  { transaction_id := transaction.transaction_id
    source_account := transaction.source_account
    destination_account := transaction.destination_account
    amount := transaction.amount
    currency := transaction.currency
    status := transaction.status
    created_at := transaction.created_at
    processed_at := transaction.processed_at }

/-- HTTP-level outcome the webhook endpoint resolves to: a 202 `ACCEPTED`
envelope with a message, or an `HTTPException` with a status code and
detail. -/
inductive HttpOutcome where
  | accepted (message : String)
  | httpError (status_code : Nat) (detail : String)
deriving DecidableEq

/-- Store behaviour visible to one webhook request: the outcome of the
idempotency-check `get`, the outcome of the `insert`, and the clock value
`get_current_timestamp()` returns. -/
structure WebhookEnv where
  getResult : DbOutcome (List Transaction)
  insertResult : DbOutcome (List Transaction)
  now : String

/-- Side effects one webhook request performs: whether the idempotency
`get` ran, whether the `insert` ran, the record handed to the insert, and
the `transaction_id` handed to `background_tasks.add_task` (if any). -/
structure IngestEffects where
  getCalled : Bool
  insertCalled : Bool
  insertArg : Option Transaction
  scheduledTask : Option String
deriving DecidableEq

/-- The duplicate-submission message chosen in `webhook_transaction.py`
lines 98-105 from the existing record's status. -/
def existing_transaction_message (transaction_id transaction_status : String) :
    String :=
  if transaction_status = "PROCESSED" then
    "Transaction " ++ transaction_id ++ " already received and fully processed"
  else if transaction_status = "PROCESSING" then
    "Transaction " ++ transaction_id ++ " is already being processed"
  else
    "Transaction " ++ transaction_id ++ " already exists with status: " ++
      transaction_status

/-- Embeds `receive_transaction_webhook` (`webhook_transaction.py` lines 54-153):
validate, idempotency-check via `get_transaction` (whose timeouts are
masked as absence), insert a fresh PROCESSING record, schedule the
background task, and map an insert timeout to 503 and any other insert
failure to 500. -/
def receive_transaction_webhook (request : Submission) (env : WebhookEnv) :
    HttpOutcome × IngestEffects :=
  let validation := validate_transaction_data request
  if validation.1 = false then
    (.httpError 400 (validation.2.getD ""),
     ⟨false, false, none, none⟩)
  else
    match DatabaseClient.get_transaction env.getResult with
    | some existing_transaction =>
      (.accepted (existing_transaction_message request.transaction_id
          existing_transaction.status),
       ⟨true, false, none, none⟩)
    | none =>
      let transaction_record : Transaction :=
        { transaction_id := request.transaction_id
          source_account := request.source_account
          destination_account := request.destination_account
          amount := request.amount
          currency := request.currency
          status := "PROCESSING"
          created_at := env.now
          processed_at := none }
      match DatabaseClient.create_transaction env.insertResult with
      | .ok _ =>
        (.accepted ("Transaction " ++ request.transaction_id ++
            " accepted for processing"),
         ⟨true, true, some transaction_record, some request.transaction_id⟩)
      | .error .timeout =>
        (.httpError 503 "Database operation timed out. Please retry the request.",
         ⟨true, true, some transaction_record, none⟩)
      | .error .err =>
        (.httpError 500 "Internal server error while processing webhook",
         ⟨true, true, some transaction_record, none⟩)

/-- Outcome of the status endpoint: a formatted transaction view, a 404,
or a 500. -/
inductive StatusOutcome where
  | ok (view : Transaction)
  | notFound (detail : String)
  | internalError (detail : String)
deriving DecidableEq

/-- Embeds `get_transaction_status` (`transaction_status.py` lines 35-74): fetch
through `DatabaseClient.get_transaction` (which masks store failures as
`None`), raise 404 when nothing comes back, else format the row. The
500 arm fires only for exceptions raised inside the endpoint body itself,
which the embedded body never does. -/
def get_transaction_status (transaction_id : String)
    (b : DbOutcome (List Transaction)) : StatusOutcome :=
  match DatabaseClient.get_transaction b with
  | none => .notFound ("Transaction " ++ transaction_id ++ " not found")
  | some transaction => .ok (format_transaction_response transaction)

/-- Result dict of `simulate_transaction_processing`: the `success` flag
plus the optional `error`, `processed_amount`, `fees` and `net_amount`
entries. -/
structure ProcessingResult where
  success : Bool
  error : Option String
  processed_amount : Option Rat
  fees : Option Rat
  net_amount : Option Rat
deriving DecidableEq

/-- Embeds `simulate_transaction_processing` (`transaction_processor.py` lines
83-130): reject a non-positive amount, otherwise succeed with a 1% fee
and the 99% net amount. -/
def simulate_transaction_processing (transaction : Transaction) :
    ProcessingResult :=
  if transaction.amount ≤ 0 then
    { success := false
      error := some "Invalid transaction amount"
      processed_amount := none
      fees := none
      net_amount := none }
  else
    { success := true
      error := none
      processed_amount := some transaction.amount
      fees := some (transaction.amount * 0.01)
      net_amount := some (transaction.amount * 0.99) }

/-- Store behaviour visible to one background-worker run: the outcome of
the re-fetch `get`, the per-attempt outcomes of the status update, and
the clock value used for `processed_at`. -/
structure WorkerEnv where
  getResult : DbOutcome (List Transaction)
  updateResults : Nat → DbOutcome (List Transaction)
  now : String

/-- Store writes one background-worker run performs: whether
`update_transaction_status` was called and with which `status` /
`processed_at` arguments. -/
structure WorkerEffects where
  updateCalled : Bool
  updateStatusArg : Option String
  updateProcessedAtArg : Option String
deriving DecidableEq

/-- The effects record of a worker run that performed no store write. -/
def noStoreWrite : WorkerEffects := ⟨false, none, none⟩

/-- Embeds `process_transaction_background` (`transaction_processor.py` lines
18-80): re-fetch the record (absent: return false); already PROCESSED:
return true with no write; else simulate processing, and on success
update the status to PROCESSED with `max_retries = 3`, returning the
update's boolean result; on simulated failure return false with no
write. -/
def process_transaction_background (transaction_id : String)
    (env : WorkerEnv) : Bool × WorkerEffects :=
  match DatabaseClient.get_transaction env.getResult with
  | none => (false, noStoreWrite)
  | some transaction =>
    if transaction.status = "PROCESSED" then
      (true, noStoreWrite)
    else
      let processing_result := simulate_transaction_processing transaction
      if processing_result.success then
        let processed_at := env.now
        let trace := DatabaseClient.update_transaction_status transaction_id
          "PROCESSED" (some processed_at) false 3 env.updateResults
        (trace.result, ⟨true, some "PROCESSED", some processed_at⟩)
      else
        (false, noStoreWrite)

/-! ## Helper lemmas -/

theorem string_eq_of_data_eq (a b : String) (h : a.data = b.data) : a = b := by
  cases a; cases b; exact congrArg String.mk h

theorem string_append_cancel_left (p a b : String) (h : p ++ a = p ++ b) :
    a = b := by
  have hd := congrArg String.data h
  simp only [String.data_append] at hd
  exact string_eq_of_data_eq a b (List.append_cancel_left hd)

theorem string_append_ne_of_ne_at (A B s : String) (i : Nat)
    (h1 : i < A.data.length) (h2 : A.data[i]? ≠ B.data[i]?) : A ++ s ≠ B := by
  intro h
  apply h2
  have hd := congrArg String.data h
  simp only [String.data_append] at hd
  rw [← hd, List.getElem?_append_left h1]

theorem existing_message_processed (transaction_id : String) :
    existing_transaction_message transaction_id "PROCESSED" =
      "Transaction " ++ transaction_id ++
        " already received and fully processed" := by
  simp [existing_transaction_message]

theorem existing_message_processing (transaction_id : String) :
    existing_transaction_message transaction_id "PROCESSING" =
      "Transaction " ++ transaction_id ++ " is already being processed" := by
  simp [existing_transaction_message]

theorem existing_message_other (transaction_id s : String)
    (hs1 : s ≠ "PROCESSED") (hs2 : s ≠ "PROCESSING") :
    existing_transaction_message transaction_id s =
      "Transaction " ++ transaction_id ++ " already exists with status: " ++
        s := by
  unfold existing_transaction_message
  rw [if_neg hs1, if_neg hs2]

/-! ## Claims -/

/-- Claim C1: a submission whose `transaction_id` the idempotency check
finds in the store triggers no insert and no background task, and is
acknowledged with a message derived from the existing record's status;
the PROCESSED, PROCESSING and other-status message texts are pairwise
distinct. -/
theorem webhook_duplicate_submission_acknowledged (request : Submission)
    (env : WebhookEnv) (t : Transaction) (rest : List Transaction)
    (hv : (validate_transaction_data request).1 = true)
    (hget : env.getResult = .ok (t :: rest)) :
    receive_transaction_webhook request env =
      (.accepted (existing_transaction_message request.transaction_id t.status),
       ⟨true, false, none, none⟩) ∧
    ∀ s : String, s ≠ "PROCESSED" → s ≠ "PROCESSING" →
      existing_transaction_message request.transaction_id "PROCESSED" ≠
        existing_transaction_message request.transaction_id "PROCESSING" ∧
      existing_transaction_message request.transaction_id "PROCESSED" ≠
        existing_transaction_message request.transaction_id s ∧
      existing_transaction_message request.transaction_id "PROCESSING" ≠
        existing_transaction_message request.transaction_id s := by
  constructor
  · simp [receive_transaction_webhook, hv, hget, DatabaseClient.get_transaction]
  · intro s hs1 hs2
    rw [existing_message_processed, existing_message_processing,
      existing_message_other request.transaction_id s hs1 hs2]
    refine ⟨?_, ?_, ?_⟩
    · intro h
      exact absurd (string_append_cancel_left _ _ _ h) (by decide)
    · intro h
      have h2 : ("Transaction " ++ request.transaction_id) ++
          " already received and fully processed" =
          ("Transaction " ++ request.transaction_id) ++
            (" already exists with status: " ++ s) := by
        rw [← String.append_assoc]; exact h
      have h3 := string_append_cancel_left _ _ _ h2
      exact string_append_ne_of_ne_at " already exists with status: "
        " already received and fully processed" s 9 (by decide) (by decide)
        h3.symm
    · intro h
      have h2 : ("Transaction " ++ request.transaction_id) ++
          " is already being processed" =
          ("Transaction " ++ request.transaction_id) ++
            (" already exists with status: " ++ s) := by
        rw [← String.append_assoc]; exact h
      have h3 := string_append_cancel_left _ _ _ h2
      exact string_append_ne_of_ne_at " already exists with status: "
        " is already being processed" s 9 (by decide) (by decide) h3.symm

/-- Witness for claim C1 at a concrete duplicate submission. -/
theorem webhook_duplicate_submission_acknowledged_witness :
    receive_transaction_webhook
      ⟨"TXN00123", "ACC001", "ACC002", 100, "USD"⟩
      ⟨.ok [⟨"TXN00123", "ACC001", "ACC002", 100, "USD", "PROCESSING",
        "2026-01-01T00:00:00+00:00", none⟩], .ok [], "2026-01-02T00:00:00+00:00"⟩ =
      (.accepted ("Transaction TXN00123 is already being processed"),
       ⟨true, false, none, none⟩) := by
  have h := webhook_duplicate_submission_acknowledged
    ⟨"TXN00123", "ACC001", "ACC002", 100, "USD"⟩
    ⟨.ok [⟨"TXN00123", "ACC001", "ACC002", 100, "USD", "PROCESSING",
      "2026-01-01T00:00:00+00:00", none⟩], .ok [], "2026-01-02T00:00:00+00:00"⟩
    ⟨"TXN00123", "ACC001", "ACC002", 100, "USD", "PROCESSING",
      "2026-01-01T00:00:00+00:00", none⟩ [] (by decide) rfl
  rw [h.1]
  rfl

/-- Discriminator for the 404 arm of the status endpoint. -/
def StatusOutcome.isNotFound : StatusOutcome → Bool
  | .notFound _ => true
  | _ => false

/-- Discriminator for the 500 arm of the status endpoint. -/
def StatusOutcome.isInternalError : StatusOutcome → Bool
  | .internalError _ => true
  | _ => false

/-- Claim C2 (counterexample): when the underlying store call times out —
a store failure, not absence of the record — the Status Reader returns
the not-found outcome, not an internal-error outcome, because
`DatabaseClient.get_transaction` masks the failure as `None`. -/
theorem status_reader_merges_failure_counterexample :
    get_transaction_status "TXN00123" (DbOutcome.timeout) =
      .notFound "Transaction TXN00123 not found" ∧
    (get_transaction_status "TXN00123" (DbOutcome.timeout)).isNotFound = true ∧
    (get_transaction_status "TXN00123" (DbOutcome.timeout)).isInternalError =
      false :=
  ⟨rfl, rfl, rfl⟩

/-- Claim C2 (amended): the Status Reader maps an empty fetch result to
not-found and a returned row to the formatted view; a store timeout or
store error is masked as absence by the accessor and therefore also
surfaces as not-found, never as the internal-error outcome. -/
theorem status_reader_maps_absence_to_not_found (transaction_id : String)
    (b : DbOutcome (List Transaction)) :
    (DatabaseClient.get_transaction b = none →
      get_transaction_status transaction_id b =
        .notFound ("Transaction " ++ transaction_id ++ " not found")) ∧
    (∀ t, DatabaseClient.get_transaction b = some t →
      get_transaction_status transaction_id b =
        .ok (format_transaction_response t)) ∧
    (b = .timeout ∨ b = .err →
      get_transaction_status transaction_id b =
        .notFound ("Transaction " ++ transaction_id ++ " not found")) := by
  refine ⟨fun h => ?_, fun t h => ?_, fun h => ?_⟩
  · simp [get_transaction_status, h]
  · simp [get_transaction_status, h]
  · rcases h with h | h <;> simp [get_transaction_status, h,
      DatabaseClient.get_transaction]

/-- Witness for claim C2 (amended) at a concrete timed-out store call. -/
theorem status_reader_maps_absence_to_not_found_witness :
    get_transaction_status "TXN00123" (DbOutcome.timeout) =
      .notFound ("Transaction " ++ "TXN00123" ++ " not found") :=
  (status_reader_maps_absence_to_not_found "TXN00123" DbOutcome.timeout).2.2
    (Or.inl rfl)

/-- Claim C9: the Store Accessor's get returns the first fetched row or
absence, and maps a timeout or any other store failure to absence
instead of propagating it. -/
theorem get_transaction_returns_value_or_absence :
    (∀ l : List Transaction, DatabaseClient.get_transaction (.ok l) = l.head?) ∧
    DatabaseClient.get_transaction (.timeout : DbOutcome (List Transaction)) =
      none ∧
    DatabaseClient.get_transaction (.err : DbOutcome (List Transaction)) =
      none :=
  ⟨fun _ => rfl, rfl, rfl⟩

/-- Claim C3: when the re-fetched record is already PROCESSED, the
Completion Worker returns true and performs no store write, so the
PROCESSING to PROCESSED transition happens at most once and a PROCESSED
record is never mutated again by the worker. -/
theorem worker_processed_record_is_noop (transaction_id : String)
    (env : WorkerEnv) (t : Transaction) (rest : List Transaction)
    (hget : env.getResult = .ok (t :: rest))
    (hst : t.status = "PROCESSED") :
    process_transaction_background transaction_id env = (true, noStoreWrite) := by
  simp [process_transaction_background, hget, DatabaseClient.get_transaction,
    hst]

/-- Witness for claim C3 at a concrete already-PROCESSED record. -/
theorem worker_processed_record_is_noop_witness :
    process_transaction_background "TXN00123"
      ⟨.ok [⟨"TXN00123", "ACC001", "ACC002", 100, "USD", "PROCESSED",
        "2026-01-01T00:00:00+00:00", some "2026-01-01T00:01:00+00:00"⟩],
       fun _ => .ok [], "2026-01-02T00:00:00+00:00"⟩ = (true, noStoreWrite) :=
  worker_processed_record_is_noop "TXN00123" _
    ⟨"TXN00123", "ACC001", "ACC002", 100, "USD", "PROCESSED",
      "2026-01-01T00:00:00+00:00", some "2026-01-01T00:01:00+00:00"⟩ []
    rfl rfl

/-- Claim C8: in the Completion Worker's simulation step, a non-positive
amount makes the simulation fail, leaves the record untouched (no store
write, status stays PROCESSING) and makes the worker return false; a
positive amount succeeds with a 1% fee and 99% net amount. -/
theorem worker_simulation_step (transaction_id : String) (env : WorkerEnv)
    (t : Transaction) (rest : List Transaction)
    (hget : env.getResult = .ok (t :: rest))
    (hst : t.status ≠ "PROCESSED") :
    (t.amount ≤ 0 →
      simulate_transaction_processing t =
        ⟨false, some "Invalid transaction amount", none, none, none⟩ ∧
      process_transaction_background transaction_id env =
        (false, noStoreWrite)) ∧
    (0 < t.amount →
      simulate_transaction_processing t =
        ⟨true, none, some t.amount, some (t.amount * 0.01),
          some (t.amount * 0.99)⟩) := by
  constructor
  · intro hamt
    have hsim : simulate_transaction_processing t =
        ⟨false, some "Invalid transaction amount", none, none, none⟩ := by
      simp [simulate_transaction_processing, hamt]
    refine ⟨hsim, ?_⟩
    simp [process_transaction_background, hget,
      DatabaseClient.get_transaction, hst, hsim]
  · intro hamt
    simp [simulate_transaction_processing, not_le.mpr hamt]

/-- Witness for claim C8 at a concrete non-positive-amount record. -/
theorem worker_simulation_step_witness :
    simulate_transaction_processing
      ⟨"TXN00123", "ACC001", "ACC002", -5, "USD", "PROCESSING",
        "2026-01-01T00:00:00+00:00", none⟩ =
      ⟨false, some "Invalid transaction amount", none, none, none⟩ ∧
    process_transaction_background "TXN00123"
      ⟨.ok [⟨"TXN00123", "ACC001", "ACC002", -5, "USD", "PROCESSING",
        "2026-01-01T00:00:00+00:00", none⟩],
       fun _ => .ok [], "2026-01-02T00:00:00+00:00"⟩ =
      (false, noStoreWrite) :=
  (worker_simulation_step "TXN00123"
    ⟨.ok [⟨"TXN00123", "ACC001", "ACC002", -5, "USD", "PROCESSING",
      "2026-01-01T00:00:00+00:00", none⟩],
     fun _ => .ok [], "2026-01-02T00:00:00+00:00"⟩
    ⟨"TXN00123", "ACC001", "ACC002", -5, "USD", "PROCESSING",
      "2026-01-01T00:00:00+00:00", none⟩ [] rfl (by decide)).1 (by norm_num)

/-- The retry loop returns true exactly when, within the remaining fuel,
some attempt completes with at least one mutated row after a (possibly
empty) run of transient failures. -/
theorem executeUpdateLoop_true_iff
    (updates : Nat → DbOutcome (List Transaction)) :
    ∀ fuel attempt, (executeUpdateLoop updates attempt fuel).result = true ↔
      ∃ i, i < fuel ∧
        (∀ j, j < i → (updates (attempt + j)).isTransient = true) ∧
        ∃ l, updates (attempt + i) = .ok l ∧ 0 < l.length := by
  intro fuel
  induction fuel with
  | zero =>
    intro attempt
    simp [executeUpdateLoop]
  | succ f ih =>
    intro attempt
    cases hu : updates attempt with
    | ok l =>
      have hres : executeUpdateLoop updates attempt (f + 1) =
          ⟨decide (0 < l.length), 1, []⟩ := by
        simp [executeUpdateLoop, DatabaseClient._execute_single_update, hu]
      rw [hres]
      show decide (0 < l.length) = true ↔ _
      rw [decide_eq_true_eq]
      constructor
      · intro h
        exact ⟨0, Nat.succ_pos f, fun j hj => absurd hj (Nat.not_lt_zero j),
          l, by simpa using hu, h⟩
      · rintro ⟨i, _, htr, l', hl', hlen⟩
        have hi0 : i = 0 := by
          by_contra hne
          have h0 := htr 0 (Nat.pos_of_ne_zero hne)
          rw [Nat.add_zero, hu] at h0
          simp [DbOutcome.isTransient] at h0
        subst hi0
        rw [Nat.add_zero, hu] at hl'
        injection hl' with hll
        subst hll
        exact hlen
    | timeout =>
      by_cases hf : f = 0
      · subst hf
        have hres : executeUpdateLoop updates attempt 1 = ⟨false, 1, []⟩ := by
          simp [executeUpdateLoop, DatabaseClient._execute_single_update, hu]
        rw [hres]
        constructor
        · intro h
          exact absurd h (by decide)
        · rintro ⟨i, hi, _, l, hl, _⟩
          obtain rfl : i = 0 := by omega
          rw [Nat.add_zero, hu] at hl
          cases hl
      · have hres : (executeUpdateLoop updates attempt (f + 1)).result =
            (executeUpdateLoop updates (attempt + 1) f).result := by
          simp [executeUpdateLoop, DatabaseClient._execute_single_update, hu,
            hf]
        rw [hres, ih (attempt + 1)]
        constructor
        · rintro ⟨i, hi, htr, l, hl, hlen⟩
          refine ⟨i + 1, by omega, ?_, l, ?_, hlen⟩
          · intro j hj
            cases j with
            | zero => rw [Nat.add_zero, hu]; rfl
            | succ j' =>
              have ht := htr j' (by omega)
              have heq : attempt + (j' + 1) = attempt + 1 + j' := by omega
              rw [heq]
              exact ht
          · have heq : attempt + (i + 1) = attempt + 1 + i := by omega
            rw [heq]
            exact hl
        · rintro ⟨i, hi, htr, l, hl, hlen⟩
          cases i with
          | zero =>
            rw [Nat.add_zero, hu] at hl
            cases hl
          | succ i' =>
            refine ⟨i', by omega, ?_, l, ?_, hlen⟩
            · intro j hj
              have ht := htr (j + 1) (by omega)
              have heq : attempt + 1 + j = attempt + (j + 1) := by omega
              rw [heq]
              exact ht
            · have heq : attempt + 1 + i' = attempt + (i' + 1) := by omega
              rw [heq]
              exact hl
    | err =>
      by_cases hf : f = 0
      · subst hf
        have hres : executeUpdateLoop updates attempt 1 = ⟨false, 1, []⟩ := by
          simp [executeUpdateLoop, DatabaseClient._execute_single_update, hu]
        rw [hres]
        constructor
        · intro h
          exact absurd h (by decide)
        · rintro ⟨i, hi, _, l, hl, _⟩
          obtain rfl : i = 0 := by omega
          rw [Nat.add_zero, hu] at hl
          cases hl
      · have hres : (executeUpdateLoop updates attempt (f + 1)).result =
            (executeUpdateLoop updates (attempt + 1) f).result := by
          simp [executeUpdateLoop, DatabaseClient._execute_single_update, hu,
            hf]
        rw [hres, ih (attempt + 1)]
        constructor
        · rintro ⟨i, hi, htr, l, hl, hlen⟩
          refine ⟨i + 1, by omega, ?_, l, ?_, hlen⟩
          · intro j hj
            cases j with
            | zero => rw [Nat.add_zero, hu]; rfl
            | succ j' =>
              have ht := htr j' (by omega)
              have heq : attempt + (j' + 1) = attempt + 1 + j' := by omega
              rw [heq]
              exact ht
          · have heq : attempt + (i + 1) = attempt + 1 + i := by omega
            rw [heq]
            exact hl
        · rintro ⟨i, hi, htr, l, hl, hlen⟩
          cases i with
          | zero =>
            rw [Nat.add_zero, hu] at hl
            cases hl
          | succ i' =>
            refine ⟨i', by omega, ?_, l, ?_, hlen⟩
            · intro j hj
              have ht := htr (j + 1) (by omega)
              have heq : attempt + 1 + j = attempt + (j + 1) := by omega
              rw [heq]
              exact ht
            · have heq : attempt + 1 + i' = attempt + (i' + 1) := by omega
              rw [heq]
              exact hl

/-- Claim C4: `update_status` returns true iff some attempt, reached only
across transient failures, mutates at least one row; an attempt that
completes with zero matched rows ends the call at once with a definitive
false — one attempt, no backoff sleep, no retry. -/
theorem update_status_true_iff_row_mutated
    (updates : Nat → DbOutcome (List Transaction)) (max_retries : Nat)
    (transaction_id status : String) (processed_at : Option String)
    (use_timeout : Bool) :
    ((DatabaseClient.update_transaction_status transaction_id status
        processed_at use_timeout max_retries updates).result = true ↔
      ∃ i, i < max_retries ∧
        (∀ j, j < i → (updates j).isTransient = true) ∧
        ∃ l, updates i = .ok l ∧ 0 < l.length) ∧
    (∀ l, 0 < max_retries → updates 0 = .ok l → l.length = 0 →
      DatabaseClient.update_transaction_status transaction_id status
        processed_at use_timeout max_retries updates = ⟨false, 1, []⟩) := by
  constructor
  · have h := executeUpdateLoop_true_iff updates max_retries 0
    simpa [DatabaseClient.update_transaction_status,
      DatabaseClient._execute_update_with_retry] using h
  · intro l hm h0 hlen
    obtain ⟨m, rfl⟩ : ∃ m, max_retries = m + 1 := ⟨max_retries - 1, by omega⟩
    simp [DatabaseClient.update_transaction_status,
      DatabaseClient._execute_update_with_retry, executeUpdateLoop,
      DatabaseClient._execute_single_update, h0, hlen]

/-- Witness for claim C4: an update that completes and matches zero rows
returns false after exactly one attempt with no backoff. -/
theorem update_status_true_iff_row_mutated_witness :
    DatabaseClient.update_transaction_status "TXN00123" "PROCESSED"
      (some "2026-01-01T00:01:00+00:00") false 3 (fun _ => .ok []) =
      ⟨false, 1, []⟩ :=
  (update_status_true_iff_row_mutated (fun _ => .ok []) 3 "TXN00123"
    "PROCESSED" (some "2026-01-01T00:01:00+00:00") false).2 []
    (by decide) rfl rfl

/-- Claim C5: with `max_retries = 3`, two transient failures followed by a
successful attempt yield true after exactly 3 attempts, with backoff
sleeps of 2^0 = 1 second and then 2^1 = 2 seconds. -/
theorem update_status_retry_backoff
    (updates : Nat → DbOutcome (List Transaction)) (l : List Transaction)
    (transaction_id status : String) (processed_at : Option String)
    (use_timeout : Bool)
    (h0 : (updates 0).isTransient = true)
    (h1 : (updates 1).isTransient = true)
    (h2 : updates 2 = .ok l) (hlen : 0 < l.length) :
    DatabaseClient.update_transaction_status transaction_id status
      processed_at use_timeout 3 updates = ⟨true, 3, [1, 2]⟩ := by
  cases hu0 : updates 0 with
  | ok l0 =>
    rw [hu0] at h0
    simp [DbOutcome.isTransient] at h0
  | timeout =>
    cases hu1 : updates 1 with
    | ok l1 =>
      rw [hu1] at h1
      simp [DbOutcome.isTransient] at h1
    | timeout =>
      simp [DatabaseClient.update_transaction_status,
        DatabaseClient._execute_update_with_retry, executeUpdateLoop,
        DatabaseClient._execute_single_update, hu0, hu1, h2, hlen]
    | err =>
      simp [DatabaseClient.update_transaction_status,
        DatabaseClient._execute_update_with_retry, executeUpdateLoop,
        DatabaseClient._execute_single_update, hu0, hu1, h2, hlen]
  | err =>
    cases hu1 : updates 1 with
    | ok l1 =>
      rw [hu1] at h1
      simp [DbOutcome.isTransient] at h1
    | timeout =>
      simp [DatabaseClient.update_transaction_status,
        DatabaseClient._execute_update_with_retry, executeUpdateLoop,
        DatabaseClient._execute_single_update, hu0, hu1, h2, hlen]
    | err =>
      simp [DatabaseClient.update_transaction_status,
        DatabaseClient._execute_update_with_retry, executeUpdateLoop,
        DatabaseClient._execute_single_update, hu0, hu1, h2, hlen]

/-- Witness for claim C5 at a concrete twice-failing update sequence. -/
theorem update_status_retry_backoff_witness :
    DatabaseClient.update_transaction_status "TXN00123" "PROCESSED"
      (some "2026-01-01T00:01:00+00:00") false 3
      (fun n => if n < 2 then .timeout else
        .ok [⟨"TXN00123", "ACC001", "ACC002", 100, "USD", "PROCESSED",
          "2026-01-01T00:00:00+00:00", some "2026-01-01T00:01:00+00:00"⟩]) =
      ⟨true, 3, [1, 2]⟩ :=
  update_status_retry_backoff
    (fun n => if n < 2 then .timeout else
      .ok [⟨"TXN00123", "ACC001", "ACC002", 100, "USD", "PROCESSED",
        "2026-01-01T00:00:00+00:00", some "2026-01-01T00:01:00+00:00"⟩])
    [⟨"TXN00123", "ACC001", "ACC002", 100, "USD", "PROCESSED",
      "2026-01-01T00:00:00+00:00", some "2026-01-01T00:01:00+00:00"⟩]
    "TXN00123" "PROCESSED" (some "2026-01-01T00:01:00+00:00") false
    rfl rfl rfl (by decide)

/-- Claim C10: with `max_retries = 0` the retry loop body never runs, so
`update_status` returns false with zero attempts and no backoff sleeps,
whatever the store would have answered. -/
theorem update_status_zero_retries
    (updates : Nat → DbOutcome (List Transaction))
    (transaction_id status : String) (processed_at : Option String)
    (use_timeout : Bool) :
    DatabaseClient.update_transaction_status transaction_id status
      processed_at use_timeout 0 updates = ⟨false, 0, []⟩ :=
  rfl

/-- A submission that passes `validate_transaction_data` has a positive
amount, a 3-character currency and distinct accounts. -/
theorem validate_passes_implies (d : Submission)
    (h : (validate_transaction_data d).1 = true) :
    0 < d.amount ∧ d.currency.length = 3 ∧
      d.source_account ≠ d.destination_account := by
  unfold validate_transaction_data at h
  split at h
  · simp at h
  · split at h
    · simp at h
    · split at h
      · simp at h
      · split at h
        · simp at h
        · split at h
          · simp at h
          · split at h
            · simp at h
            · rename_i h1 h2 h3 h4 h5 h6
              exact ⟨lt_of_not_le h2, not_not.mp h3, h6⟩

/-- Claim C7: a submission with non-positive amount, or currency whose
length is not 3, or equal source and destination accounts, is rejected
with a 400 validation error before the idempotency-check get or the
insert run, so no persistence occurs. -/
theorem webhook_invalid_submission_rejected (request : Submission)
    (env : WebhookEnv)
    (h : request.amount ≤ 0 ∨ request.currency.length ≠ 3 ∨
      request.source_account = request.destination_account) :
    receive_transaction_webhook request env =
      (.httpError 400 ((validate_transaction_data request).2.getD ""),
       ⟨false, false, none, none⟩) := by
  have hv : (validate_transaction_data request).1 = false := by
    cases hb : (validate_transaction_data request).1
    · rfl
    · obtain ⟨ha, hc, hs⟩ := validate_passes_implies request hb
      rcases h with h | h | h
      · exact absurd h (not_le.mpr ha)
      · exact absurd hc h
      · exact absurd h hs
  simp [receive_transaction_webhook, hv]

/-- Witness for claim C7 at a concrete submission whose source and
destination accounts coincide. -/
theorem webhook_invalid_submission_rejected_witness :
    receive_transaction_webhook ⟨"TXN00123", "ACC001", "ACC001", 100, "USD"⟩
      ⟨.ok [], .ok [], "2026-01-01T00:00:00+00:00"⟩ =
      (.httpError 400
        "source_account and destination_account cannot be the same",
       ⟨false, false, none, none⟩) := by
  rw [webhook_invalid_submission_rejected
    ⟨"TXN00123", "ACC001", "ACC001", 100, "USD"⟩
    ⟨.ok [], .ok [], "2026-01-01T00:00:00+00:00"⟩ (Or.inr (Or.inr rfl))]
  rfl

/-- Claim C6 (counterexample): a request whose idempotency-check get
exceeds its short timeout is not answered with 503 — the accessor masks
the timeout as absence, the insert then succeeds, and the caller receives
the accepted acknowledgment. -/
theorem webhook_get_timeout_not_503_counterexample :
    (⟨DbOutcome.timeout,
      .ok [⟨"TXN00123", "ACC001", "ACC002", 100, "USD", "PROCESSING",
        "2026-01-01T00:00:00+00:00", none⟩],
      "2026-01-01T00:00:00+00:00"⟩ : WebhookEnv).getResult =
        DbOutcome.timeout ∧
    receive_transaction_webhook ⟨"TXN00123", "ACC001", "ACC002", 100, "USD"⟩
      ⟨DbOutcome.timeout,
       .ok [⟨"TXN00123", "ACC001", "ACC002", 100, "USD", "PROCESSING",
         "2026-01-01T00:00:00+00:00", none⟩],
       "2026-01-01T00:00:00+00:00"⟩ =
      (.accepted "Transaction TXN00123 accepted for processing",
       ⟨true, true,
        some ⟨"TXN00123", "ACC001", "ACC002", 100, "USD", "PROCESSING",
          "2026-01-01T00:00:00+00:00", none⟩,
        some "TXN00123"⟩) :=
  ⟨rfl, rfl⟩

/-- Claim C6 (amended): when the idempotency check observes no existing
record and the insert store call exceeds its short timeout, the caller
receives the 503 retryable-service-error outcome, not a 500 or a 400; a
timeout of the idempotency-check get itself is masked as absence and
produces no error outcome. -/
theorem webhook_insert_timeout_yields_503 (request : Submission)
    (env : WebhookEnv)
    (hv : (validate_transaction_data request).1 = true)
    (hget : DatabaseClient.get_transaction env.getResult = none)
    (hins : env.insertResult = .timeout) :
    (receive_transaction_webhook request env).1 =
      .httpError 503
        "Database operation timed out. Please retry the request." := by
  simp [receive_transaction_webhook, hv, hget, hins,
    DatabaseClient.create_transaction]

/-- Witness for claim C6 (amended) at a concrete timed-out insert. -/
theorem webhook_insert_timeout_yields_503_witness :
    (receive_transaction_webhook ⟨"TXN00123", "ACC001", "ACC002", 100, "USD"⟩
      ⟨.ok [], DbOutcome.timeout, "2026-01-01T00:00:00+00:00"⟩).1 =
      .httpError 503
        "Database operation timed out. Please retry the request." :=
  webhook_insert_timeout_yields_503
    ⟨"TXN00123", "ACC001", "ACC002", 100, "USD"⟩
    ⟨.ok [], DbOutcome.timeout, "2026-01-01T00:00:00+00:00"⟩
    (by decide) rfl rfl
